import Mathlib

/-!
Shallow embedding of `src/edbo_connector/connector.py` (class
`EDBOWebApiConnector`), a session-managing client for the EDBO RESTful API.

Time values (`time.time()` readings) are rationals.  The network and the
clock are modelled by an explicit environment: a list of pending clock
readings, a list of pending transport outcomes (connection error or an HTTP
response), and an accumulating trace of observable actions (sleeps and
POSTs).  The two unbounded loops of the source — the mutual recursion
`execute` / `__logout` on session expiry and the retry-forever loop on
connection failure — are made total with a fuel parameter; fuel exhaustion
is the `diverge` outcome.  `EDBOWebApiHelper.echo` with `force_exit=True`
terminates the process: outcome `exitProcess`.  The `TypeError` raised by
`'Bearer ' + None` is outcome `raised`.
-/

namespace Edbo

/-- Modelled from the spec: the external `config` module is not part of the
repository's source tree; spec section 6 lists its values ("Configuration
inputs": server URL, username, password, application key, user-agent string,
retry count, re-login interval, inter-call delay), modelled here as abstract
parameters. -/
structure Config where
  EDBO_SERVER : String
  EDBO_USER : String
  EDBO_PASSWORD : String
  EDBO_APPLICATION_KEY : String
  USER_AGENT : String
  RELOGIN_AFTER : Int
  EXECUTION_TIMEOUT : Rat
  CONNECTION_RETRIES : Nat
deriving Repr, DecidableEq

/-- Python `int()` applied to a real number: truncation toward zero. -/
def pyInt (q : Rat) : Int := if 0 ≤ q then ⌊q⌋ else ⌈q⌉

/-- A POST request as the connector hands it to `Session.post`: the target
url, the form-data argument and the headers argument (the external
`requests` transport is modelled as consuming exactly the three arguments
the connector passes). JSON dictionaries are association lists. -/
structure HttpRequest where
  url : String
  formData : List (String × String)
  headers : List (String × String)
deriving Repr, DecidableEq

/-- An HTTP response: its status code and its JSON body (an association
list, what `response.json()` parses to). -/
structure Response where
  status_code : Nat
  body : List (String × String)
deriving Repr, DecidableEq

/-- Outcome of one transport attempt: `requests.exceptions.ConnectionError`
or a response. -/
inductive NetResult where
  | connError
  | resp (r : Response)
deriving Repr, DecidableEq

/-- Observable actions of the client, in order: `time.sleep` pauses and
POSTs handed to the session. -/
inductive Event where
  | slept (d : Rat)
  | posted (req : HttpRequest)
deriving Repr, DecidableEq

/-- The environment: pending `time.time()` readings, pending transport
outcomes, and the trace of actions so far. An exhausted clock reads 0; an
exhausted transport list yields connection errors. -/
structure Env where
  times : List Rat
  net : List NetResult
  trace : List Event
deriving Repr, DecidableEq

/-- One `time.time()` call. -/
def Env.readTime : Env → Rat × Env
  | ⟨[], ns, tr⟩ => (0, ⟨[], ns, tr⟩)
  | ⟨t :: ts, ns, tr⟩ => (t, ⟨ts, ns, tr⟩)

/-- One `Session.post` call: consumes the next transport outcome and
records the request in the trace. -/
def Env.post (req : HttpRequest) : Env → NetResult × Env
  | ⟨ts, [], tr⟩ => (.connError, ⟨ts, [], tr ++ [.posted req]⟩)
  | ⟨ts, n :: ns, tr⟩ => (n, ⟨ts, ns, tr ++ [.posted req]⟩)

/-- One `time.sleep(d)` call: recorded in the trace. -/
def Env.sleep (d : Rat) : Env → Env
  | ⟨ts, ns, tr⟩ => ⟨ts, ns, tr ++ [.slept d]⟩

/-- Python `dict.get(k, None)` on an association list. -/
def dictGet : List (String × String) → String → Option String
  | [], _ => none
  | (k1, v1) :: rest, k => if k1 = k then some v1 else dictGet rest k

/-- Setting one key of a Python dict: replace the first binding of the key
in place, or append a new binding. -/
def dictSet : List (String × String) → String → String → List (String × String)
  | [], k, v => [(k, v)]
  | (k1, v1) :: rest, k, v =>
    if k1 = k then (k, v) :: rest else (k1, v1) :: dictSet rest k v

/-- Python `dict.update`: set every key of the second dict in the first. -/
def dictUpdate (d : List (String × String)) : List (String × String) → List (String × String)
  | [] => d
  | (k, v) :: rest => dictUpdate (dictSet d k v) rest

/-- The mutable fields of an `EDBOWebApiConnector` instance:
`_status`, `_execution_time`, `_is_logged_in`, `_session.headers` and
`_session_start_time` (the last is unset until the first successful
login assigns it). -/
structure ConnectorState where
  status : Option Nat
  execution_time : Rat
  is_logged_in : Bool
  headers : List (String × String)
  session_start_time : Option Rat
deriving Repr, DecidableEq

/-- `url_prefix = '%s/data/EDEBOWebApi' % config.EDBO_SERVER`. -/
def url_base (cfg : Config) : String := cfg.EDBO_SERVER ++ "/data/EDEBOWebApi"

/-- The `default_headers` property: origin, referer, user-agent. -/
def default_headers (cfg : Config) : List (String × String) :=
  [("Origin", cfg.EDBO_SERVER), ("Referer", cfg.EDBO_SERVER),
   ("User-Agent", cfg.USER_AGENT)]

/-- Fields as `__init__` sets them before calling `__login`. -/
def initState (cfg : Config) : ConnectorState :=
  { status := none, execution_time := 0, is_logged_in := false,
    headers := default_headers cfg, session_start_time := none }

/-- The value `execute` returns: `response.json()` or the raw response
object; the implicit `None` of a non-200 status is `Option.none` at the
use site. -/
inductive PyValue where
  | json (body : List (String × String))
  | raw (r : Response)
deriving Repr, DecidableEq

/-- Result of running one method of the connector: normal return `ok` with
the updated state and environment, process termination `exitProcess`
(`echo(..., force_exit=True)`), a propagating Python exception `raised`
(state keeps the mutations made before the raise), or `diverge` when the
fuel for an unbounded loop ran out. -/
inductive StepResult (α : Type) where
  | ok (s : ConnectorState) (e : Env) (v : α)
  | exitProcess (s : ConnectorState) (e : Env)
  | raised (s : ConnectorState) (e : Env)
  | diverge
deriving Repr, DecidableEq

/-- The authorization request `__login` sends: password grant POSTed to
`url_prefix + '/oauth/token'` with the default headers. -/
def loginReq (cfg : Config) (username password : String) : HttpRequest :=
  { url := url_base cfg ++ "/oauth/token",
    formData := [("grant_type", "password"), ("username", username),
                 ("password", password), ("app_key", cfg.EDBO_APPLICATION_KEY)],
    headers := default_headers cfg }

/-- `__login` (lines 94-149): POST the password grant to
`url_prefix + '/oauth/token'`; on 200 set `_session_start_time`, `_status`
and `_is_logged_in`, then add the `authorization: Bearer <token>` header —
where a body without `access_token` makes `'Bearer ' + None` raise.  On
400 or any other status, and on `ConnectionError`, `echo` with
`force_exit=True` terminates the process with the state unchanged. -/
def login (cfg : Config) (username password : String)
    (s : ConnectorState) (e : Env) : StepResult Unit :=
  match Env.post (loginReq cfg username password) e with
  | (.connError, e1) => .exitProcess s e1
  | (.resp r, e1) =>
    if r.status_code = 200 then
      let p := Env.readTime e1
      let s1 : ConnectorState :=
        { s with session_start_time := some p.1, status := some r.status_code,
                 is_logged_in := true }
      match dictGet r.body "access_token" with
      | none => .raised s1 p.2
      | some tok =>
        .ok { s1 with
              headers := dictUpdate s1.headers [("authorization", "Bearer " ++ tok)] }
          p.2 ()
    else .exitProcess s e1

/-- The retry-forever loop of `execute` (lines 187-213): read
`execution_start`, POST the request; on `ConnectionError` `continue`; on a
response read `execution_end` and leave the loop. -/
def retryLoop (rq : HttpRequest) : Nat → Env → Option (Rat × Response × Rat × Env)
  | 0, _ => none
  | fuel + 1, e =>
    let p1 := Env.readTime e
    match Env.post rq p1.2 with
    | (.connError, e2) => retryLoop rq fuel e2
    | (.resp r, e2) =>
      let p2 := Env.readTime e2
      some (p1.1, r, p2.1, p2.2)

/-- The request each attempt of the retry loop POSTs for
`execute url dataArg hdrsArg`: the target is
`'%s/api/%s' % (url_prefix, url)` and the defaults for an omitted
data or headers argument are `{'': ''}` and `{}` (lines 195-199). -/
def execReq (cfg : Config) (url : String)
    (dataArg hdrsArg : Option (List (String × String))) : HttpRequest :=
  { url := url_base cfg ++ "/api/" ++ url,
    formData := dataArg.getD [("", "")], headers := hdrsArg.getD [] }

/-- The part of `execute` after the expiry check (lines 183-232):
`time.sleep(EXECUTION_TIMEOUT)`, the retry loop on the method's request,
then store `_execution_time` and `_status`, and return `response.json()`
or the response when the status is 200, `None` otherwise. -/
def executeBody (cfg : Config) (fuel : Nat) (s : ConnectorState) (e : Env)
    (url : String) (dataArg hdrsArg : Option (List (String × String)))
    (json_format : Bool) : StepResult (Option PyValue) :=
  let e1 := Env.sleep cfg.EXECUTION_TIMEOUT e
  match retryLoop (execReq cfg url dataArg hdrsArg) fuel e1 with
  | none => .diverge
  | some (a, r, b, e2) =>
    .ok { s with execution_time := b - a, status := some r.status_code } e2
      (if r.status_code = 200 then
        some (if json_format then .json r.body else .raw r)
       else none)

mutual

/-- `execute` (lines 161-232): read the clock; when
`int(now - _session_start_time) > RELOGIN_AFTER`, run `__logout` then
`__login` first; then `executeBody`.  A missing `_session_start_time`
would raise (`AttributeError`). -/
def execute (cfg : Config) (fuel : Nat) (s : ConnectorState) (e : Env)
    (url : String) (dataArg hdrsArg : Option (List (String × String)))
    (json_format : Bool) : StepResult (Option PyValue) :=
  match fuel with
  | 0 => .diverge
  | fuel' + 1 =>
    match s.session_start_time with
    | none => .raised s e
    | some st =>
      let p := Env.readTime e
      if pyInt (p.1 - st) > cfg.RELOGIN_AFTER then
        match logout cfg fuel' s p.2 with
        | .ok s1 e2 _ =>
          match login cfg cfg.EDBO_USER cfg.EDBO_PASSWORD s1 e2 with
          | .ok s2 e3 _ => executeBody cfg fuel' s2 e3 url dataArg hdrsArg json_format
          | .exitProcess s9 e9 => .exitProcess s9 e9
          | .raised s9 e9 => .raised s9 e9
          | .diverge => .diverge
        | .exitProcess s9 e9 => .exitProcess s9 e9
        | .raised s9 e9 => .raised s9 e9
        | .diverge => .diverge
      else
        executeBody cfg fuel s p.2 url dataArg hdrsArg json_format

/-- `__logout` (lines 151-159): run `execute('auth/logout')`, then clear
`_is_logged_in` when `self.status == 204`. -/
def logout (cfg : Config) (fuel : Nat) (s : ConnectorState) (e : Env) :
    StepResult Unit :=
  match fuel with
  | 0 => .diverge
  | fuel' + 1 =>
    match execute cfg fuel' s e "auth/logout" none none true with
    | .ok s1 e1 _ =>
      .ok (if s1.status = some 204 then { s1 with is_logged_in := false } else s1) e1 ()
    | .exitProcess s9 e9 => .exitProcess s9 e9
    | .raised s9 e9 => .raised s9 e9
    | .diverge => .diverge

end

/-- A concrete configuration for the concrete runs below. -/
def cfg0 : Config :=
  { EDBO_SERVER := "https://edbo.test", EDBO_USER := "u", EDBO_PASSWORD := "p",
    EDBO_APPLICATION_KEY := "k", USER_AGENT := "ua",
    RELOGIN_AFTER := 900, EXECUTION_TIMEOUT := 1, CONNECTION_RETRIES := 5 }

/-- A stationary environment: the clock list is exhausted (every
`time.time()` reads 0) and no transport outcome is pending. -/
def emptyEnv : Env := ⟨[], [], []⟩

/-- A logged-in state whose session started 1000 seconds before every
clock reading of `emptyEnv`: `int(0 - (-1000)) = 1000 > 900`, the session
is expired. -/
def expiredState : ConnectorState :=
  { status := some 200, execution_time := 0, is_logged_in := true,
    headers := dictSet (default_headers cfg0) "authorization" "Bearer abc",
    session_start_time := some (-1000) }

/-- The state a fresh client reaches after `__login` is answered 200 with
body `{"access_token": "abc"}` at clock reading 0. -/
def postLoginState : ConnectorState :=
  { status := some 200, execution_time := 0, is_logged_in := true,
    headers := dictSet (default_headers cfg0) "authorization" "Bearer abc",
    session_start_time := some 0 }

/-! ### Dictionary lemmas -/

theorem dictGet_dictSet_self (d : List (String × String)) (k v : String) :
    dictGet (dictSet d k v) k = some v := by
  induction d with
  | nil => simp [dictSet, dictGet]
  | cons hd tl ih =>
    obtain ⟨k1, v1⟩ := hd
    by_cases h : k1 = k
    · simp [dictSet, dictGet, h]
    · simp [dictSet, dictGet, h, ih]

/-! ### Behaviour of `__login` -/

/-- On a 200 response whose body carries `access_token`, `__login` returns
normally with the session start time set to the clock reading taken on
receipt, status 200, the logged-in flag up, and the bearer header set. -/
theorem login_200 (cfg : Config) (u p : String) (s : ConnectorState)
    (t : Rat) (ts : List Rat) (r : Response) (ns : List NetResult)
    (tr : List Event) (tok : String)
    (h200 : r.status_code = 200)
    (htok : dictGet r.body "access_token" = some tok) :
    login cfg u p s ⟨t :: ts, .resp r :: ns, tr⟩ =
      .ok { s with session_start_time := some t, status := some 200,
                   is_logged_in := true,
                   headers := dictSet s.headers "authorization" ("Bearer " ++ tok) }
        ⟨ts, ns, tr ++ [.posted (loginReq cfg u p)]⟩ () := by
  simp [login, Env.post, Env.readTime, h200, htok, dictUpdate]

/-- On a 200 response whose body lacks `access_token`,
`'Bearer ' + None` raises: `__login` propagates the exception after
having set the session start time, the status and the logged-in flag,
with the headers untouched. -/
theorem login_200_no_token (cfg : Config) (u p : String) (s : ConnectorState)
    (t : Rat) (ts : List Rat) (r : Response) (ns : List NetResult)
    (tr : List Event)
    (h200 : r.status_code = 200)
    (htok : dictGet r.body "access_token" = none) :
    login cfg u p s ⟨t :: ts, .resp r :: ns, tr⟩ =
      .raised { s with session_start_time := some t, status := some 200,
                       is_logged_in := true }
        ⟨ts, ns, tr ++ [.posted (loginReq cfg u p)]⟩ := by
  simp [login, Env.post, Env.readTime, h200, htok]

/-- On any non-200 response, `__login` terminates the process via
`echo(..., force_exit=True)` with the connector state unchanged. -/
theorem login_non200 (cfg : Config) (u p : String) (s : ConnectorState)
    (ts : List Rat) (r : Response) (ns : List NetResult) (tr : List Event)
    (hne : r.status_code ≠ 200) :
    login cfg u p s ⟨ts, .resp r :: ns, tr⟩ =
      .exitProcess s ⟨ts, ns, tr ++ [.posted (loginReq cfg u p)]⟩ := by
  simp [login, Env.post, hne]

/-- On a `ConnectionError`, `__login` terminates the process with the
connector state unchanged. -/
theorem login_connError (cfg : Config) (u p : String) (s : ConnectorState)
    (ts : List Rat) (ns : List NetResult) (tr : List Event) :
    login cfg u p s ⟨ts, .connError :: ns, tr⟩ =
      .exitProcess s ⟨ts, ns, tr ++ [.posted (loginReq cfg u p)]⟩ := by
  simp [login, Env.post]

/-! ### Behaviour of the retry loop and of `execute` -/

/-- An attempt of the retry loop that gets a response leaves the loop with
the two clock readings taken around the POST. -/
theorem retryLoop_resp (rq : HttpRequest) (fuel : Nat) (a b : Rat)
    (ts : List Rat) (r : Response) (ns : List NetResult) (tr : List Event) :
    retryLoop rq (fuel + 1) ⟨a :: b :: ts, .resp r :: ns, tr⟩ =
      some (a, r, b, ⟨ts, ns, tr ++ [.posted rq]⟩) := by
  simp [retryLoop, Env.readTime, Env.post]

/-- An attempt of the retry loop that hits a `ConnectionError` consumes
one clock reading and one transport outcome and retries. -/
theorem retryLoop_conn (rq : HttpRequest) (fuel : Nat) (t : Rat)
    (ts : List Rat) (ns : List NetResult) (tr : List Event) :
    retryLoop rq (fuel + 1) ⟨t :: ts, .connError :: ns, tr⟩ =
      retryLoop rq fuel ⟨ts, ns, tr ++ [.posted rq]⟩ := by
  simp [retryLoop, Env.readTime, Env.post]

/-- Any finite run of `ConnectionError`s followed by a response makes the
retry loop stop at that first response, returning the clock readings taken
around the final, successful attempt only. -/
theorem retryLoop_replicate (rq : HttpRequest) (a b : Rat) (ts : List Rat)
    (r : Response) (ns : List NetResult) :
    ∀ (us : List Rat) (n : Nat) (tr : List Event),
      ∃ tr2, retryLoop rq (us.length + n + 1)
          ⟨us ++ a :: b :: ts,
           List.replicate us.length .connError ++ .resp r :: ns, tr⟩ =
        some (a, r, b, ⟨ts, ns, tr2⟩) := by
  intro us
  induction us with
  | nil =>
    intro n tr
    exact ⟨tr ++ [.posted rq], by simpa using retryLoop_resp rq n a b ts r ns tr⟩
  | cons u1 us ih =>
    intro n tr
    simp only [List.length_cons, List.replicate_succ, List.cons_append]
    have hlen : us.length + 1 + n + 1 = us.length + n + 1 + 1 := by omega
    rw [hlen, retryLoop_conn]
    exact ih n (tr ++ [.posted rq])

/-- `executeBody` on an immediately successful attempt: sleep, POST, store
the duration and the status, and compute the return value. -/
theorem executeBody_resp (cfg : Config) (fuel : Nat) (s : ConnectorState)
    (a b : Rat) (ts : List Rat) (r : Response) (ns : List NetResult)
    (tr : List Event) (url : String)
    (dataArg hdrsArg : Option (List (String × String))) (jf : Bool) :
    executeBody cfg (fuel + 1) s ⟨a :: b :: ts, .resp r :: ns, tr⟩ url dataArg hdrsArg jf =
      .ok { s with execution_time := b - a, status := some r.status_code }
        ⟨ts, ns, tr ++ [.slept cfg.EXECUTION_TIMEOUT,
                        .posted (execReq cfg url dataArg hdrsArg)]⟩
        (if r.status_code = 200 then
          some (if jf then .json r.body else .raw r)
         else none) := by
  simp [executeBody, Env.sleep, retryLoop_resp]

/-- When the session is not expired, `execute` goes straight from the
expiry check (which consumes one clock reading) to `executeBody`. -/
theorem execute_fresh (cfg : Config) (fuel : Nat) (s : ConnectorState)
    (st t : Rat) (ts : List Rat) (ns : List NetResult) (tr : List Event)
    (url : String) (dataArg hdrsArg : Option (List (String × String)))
    (jf : Bool)
    (hst : s.session_start_time = some st)
    (hexp : pyInt (t - st) ≤ cfg.RELOGIN_AFTER) :
    execute cfg (fuel + 1) s ⟨t :: ts, ns, tr⟩ url dataArg hdrsArg jf =
      executeBody cfg (fuel + 1) s ⟨ts, ns, tr⟩ url dataArg hdrsArg jf := by
  simp [execute, hst, Env.readTime, not_lt.mpr hexp]

/-- A non-expired `execute` whose first attempt gets the response `r`:
the stored execution time spans exactly that attempt, the stored status is
the response's, and the return value is the parsed body (or raw response)
on 200 and nothing otherwise. -/
theorem execute_fresh_resp (cfg : Config) (fuel : Nat) (s : ConnectorState)
    (st t a b : Rat) (ts : List Rat) (r : Response) (ns : List NetResult)
    (tr : List Event) (url : String)
    (dataArg hdrsArg : Option (List (String × String))) (jf : Bool)
    (hst : s.session_start_time = some st)
    (hexp : pyInt (t - st) ≤ cfg.RELOGIN_AFTER) :
    execute cfg (fuel + 1) s ⟨t :: a :: b :: ts, .resp r :: ns, tr⟩ url dataArg hdrsArg jf =
      .ok { s with execution_time := b - a, status := some r.status_code }
        ⟨ts, ns, tr ++ [.slept cfg.EXECUTION_TIMEOUT,
                        .posted (execReq cfg url dataArg hdrsArg)]⟩
        (if r.status_code = 200 then
          some (if jf then .json r.body else .raw r)
         else none) := by
  rw [execute_fresh cfg fuel s st t (a :: b :: ts) (.resp r :: ns) tr url
    dataArg hdrsArg jf hst hexp]
  exact executeBody_resp cfg fuel s a b ts r ns tr url dataArg hdrsArg jf

/-- A non-expired `__logout` whose inner `execute` gets the response `r`:
the inner call stores the status and the duration, and the logged-in flag
is cleared exactly when that status is 204. The session headers are left
exactly as they were. -/
theorem logout_resp (cfg : Config) (fuel : Nat) (s : ConnectorState)
    (st t a b : Rat) (ts : List Rat) (r : Response) (ns : List NetResult)
    (tr : List Event)
    (hst : s.session_start_time = some st)
    (hexp : pyInt (t - st) ≤ cfg.RELOGIN_AFTER) :
    logout cfg (fuel + 2) s ⟨t :: a :: b :: ts, .resp r :: ns, tr⟩ =
      .ok { s with execution_time := b - a, status := some r.status_code,
                   is_logged_in :=
                     if r.status_code = 204 then false else s.is_logged_in }
        ⟨ts, ns, tr ++ [.slept cfg.EXECUTION_TIMEOUT,
                        .posted (execReq cfg "auth/logout" none none)]⟩ () := by
  have hin := execute_fresh_resp cfg fuel s st t a b ts r ns tr "auth/logout"
    none none true hst hexp
  by_cases h204 : r.status_code = 204
  · simp [logout, hin, h204]
  · simp [logout, hin, h204]

/-- A non-expired `execute` whose attempts hit one `ConnectionError` per
entry of `us` and then get the response `r`: the call returns, the stored
execution time spans only the final attempt (clock readings `a` and `b`),
and the stored status is the response's. -/
theorem execute_fresh_retries (cfg : Config) (fuel : Nat) (s : ConnectorState)
    (st t a b : Rat) (us ts : List Rat) (r : Response) (ns : List NetResult)
    (tr : List Event) (url : String)
    (dataArg hdrsArg : Option (List (String × String))) (jf : Bool)
    (hst : s.session_start_time = some st)
    (hexp : pyInt (t - st) ≤ cfg.RELOGIN_AFTER) :
    ∃ tr2, execute cfg (us.length + fuel + 1) s
        ⟨t :: (us ++ a :: b :: ts),
         List.replicate us.length .connError ++ .resp r :: ns, tr⟩
        url dataArg hdrsArg jf =
      .ok { s with execution_time := b - a, status := some r.status_code }
        ⟨ts, ns, tr2⟩
        (if r.status_code = 200 then
          some (if jf then .json r.body else .raw r)
         else none) := by
  rw [execute_fresh cfg (us.length + fuel) s st t (us ++ a :: b :: ts)
    (List.replicate us.length NetResult.connError ++ NetResult.resp r :: ns)
    tr url dataArg hdrsArg jf hst hexp]
  obtain ⟨tr2, hrl⟩ := retryLoop_replicate (execReq cfg url dataArg hdrsArg)
    a b ts r ns us fuel (tr ++ [.slept cfg.EXECUTION_TIMEOUT])
  exact ⟨tr2, by simp [executeBody, Env.sleep, hrl]⟩

/-- In the stationary configuration `expiredState` / `emptyEnv` every
clock reading is 0, so the session stays expired forever: `execute` calls
`__logout`, whose `execute('auth/logout')` finds the session expired
again, and the mutual recursion never reaches the `__login` call — for
every fuel bound both entry points diverge. -/
theorem expired_stationary_diverges :
    ∀ fuel : Nat,
      (∀ (url : String) (dataArg hdrsArg : Option (List (String × String)))
        (jf : Bool),
        execute cfg0 fuel expiredState emptyEnv url dataArg hdrsArg jf =
          .diverge) ∧
      logout cfg0 fuel expiredState emptyEnv = .diverge := by
  intro fuel
  induction fuel with
  | zero => exact ⟨fun _ _ _ _ => rfl, rfl⟩
  | succ n ih =>
    have hsst : expiredState.session_start_time = some (-1000) := rfl
    have hread : Env.readTime emptyEnv = (0, emptyEnv) := rfl
    have hexp : cfg0.RELOGIN_AFTER < pyInt ((0 : Rat) - (-1000)) := by
      simp [cfg0, pyInt]
    refine ⟨fun url dataArg hdrsArg jf => ?_, ?_⟩
    · simp only [execute, hsst, hread]
      rw [if_pos hexp, ih.2]
    · simp [logout, ih.1]

/-! ### The claims -/

/-- C1: the spec says an `execute` call on an expired session performs
exactly one logout, then one login, then sends the originally requested
POST.  The code does not: the expiry branch calls `__logout`, whose inner
`execute('auth/logout')` runs the same expiry check on the same stale
`_session_start_time` and calls `__logout` again — `__login` is never
reached and the original POST is never sent.  In the stationary expired
configuration the run exhausts every fuel bound (in Python: unbounded
recursion until `RecursionError`). -/
theorem c1_expired_execute_never_completes :
    ∀ (fuel : Nat) (url : String)
      (dataArg hdrsArg : Option (List (String × String))) (jf : Bool),
      execute cfg0 fuel expiredState emptyEnv url dataArg hdrsArg jf =
        StepResult.diverge :=
  fun fuel url dataArg hdrsArg jf =>
    (expired_stationary_diverges fuel).1 url dataArg hdrsArg jf

/-- C2: a login attempt answered with HTTP 200 whose body carries
`access_token` leaves the client logged in, puts `Bearer <token>` into the
session headers, and sets the session start time to the clock reading
taken on receipt of that response. -/
theorem c2_login_success_state (cfg : Config) (u p : String)
    (s : ConnectorState) (t : Rat) (ts : List Rat) (r : Response)
    (ns : List NetResult) (tr : List Event) (tok : String)
    (h200 : r.status_code = 200)
    (htok : dictGet r.body "access_token" = some tok) :
    ∃ s2 e2, login cfg u p s ⟨t :: ts, .resp r :: ns, tr⟩ = .ok s2 e2 () ∧
      s2.is_logged_in = true ∧
      dictGet s2.headers "authorization" = some ("Bearer " ++ tok) ∧
      s2.session_start_time = some t := by
  refine ⟨_, _, login_200 cfg u p s t ts r ns tr tok h200 htok, rfl, ?_, rfl⟩
  exact dictGet_dictSet_self s.headers "authorization" ("Bearer " ++ tok)

/-- Witness for C2 at a concrete login. -/
theorem c2_login_success_state_witness :
    ∃ s2 e2, login cfg0 "u" "p" (initState cfg0)
        ⟨[5], [.resp ⟨200, [("access_token", "abc")]⟩], []⟩ = .ok s2 e2 () ∧
      s2.is_logged_in = true ∧
      dictGet s2.headers "authorization" = some ("Bearer " ++ "abc") ∧
      s2.session_start_time = some 5 :=
  c2_login_success_state cfg0 "u" "p" (initState cfg0) 5 []
    ⟨200, [("access_token", "abc")]⟩ [] [] "abc" rfl rfl

/-- C3: a completed `execute` returns the parsed JSON body when the final
status is 200 and `json_format` is true, the raw response object when the
final status is 200 and `json_format` is false, and nothing (`None`, no
error raised) otherwise — the stored status code being the only signal. -/
theorem c3_execute_return_value (cfg : Config) (fuel : Nat)
    (s : ConnectorState) (st t a b : Rat) (ts : List Rat) (r : Response)
    (ns : List NetResult) (tr : List Event) (url : String)
    (dataArg hdrsArg : Option (List (String × String))) (jf : Bool)
    (hst : s.session_start_time = some st)
    (hexp : pyInt (t - st) ≤ cfg.RELOGIN_AFTER) :
    ∃ s2 e2, execute cfg (fuel + 1) s ⟨t :: a :: b :: ts, .resp r :: ns, tr⟩
        url dataArg hdrsArg jf =
      .ok s2 e2
        (if r.status_code = 200 then
          some (if jf then .json r.body else .raw r)
         else none) ∧
      s2.status = some r.status_code :=
  ⟨_, _, execute_fresh_resp cfg fuel s st t a b ts r ns tr url
    dataArg hdrsArg jf hst hexp, rfl⟩

/-- Witness for C3 at a concrete successful JSON call. -/
theorem c3_execute_return_value_witness :
    ∃ s2 e2, execute cfg0 1
        { status := some 200, execution_time := 0, is_logged_in := true,
          headers := [("authorization", "Bearer abc")],
          session_start_time := some 0 }
        ⟨[10, 11, 13], [.resp ⟨200, [("k", "v")]⟩], []⟩
        "students/list" none none true =
      .ok s2 e2
        (if (200 : Nat) = 200 then
          some (if true then .json [("k", "v")] else .raw ⟨200, [("k", "v")]⟩)
         else none) ∧
      s2.status = some 200 :=
  c3_execute_return_value cfg0 0
    { status := some 200, execution_time := 0, is_logged_in := true,
      headers := [("authorization", "Bearer abc")],
      session_start_time := some 0 }
    0 10 11 13 [] ⟨200, [("k", "v")]⟩ [] [] "students/list" none none true
    rfl (by simp [pyInt, cfg0])

/-- C4: an `execute` call that hits finitely many consecutive
`ConnectionError`s and then gets a response terminates at that first
response, and the stored execution time is the duration of only the final,
successful attempt (clock readings `a` to `b`). -/
theorem c4_retry_until_success (cfg : Config) (fuel : Nat)
    (s : ConnectorState) (st t a b : Rat) (us ts : List Rat) (r : Response)
    (ns : List NetResult) (tr : List Event) (url : String)
    (dataArg hdrsArg : Option (List (String × String))) (jf : Bool)
    (hst : s.session_start_time = some st)
    (hexp : pyInt (t - st) ≤ cfg.RELOGIN_AFTER) :
    ∃ s2 e2 v, execute cfg (us.length + fuel + 1) s
        ⟨t :: (us ++ a :: b :: ts),
         List.replicate us.length .connError ++ .resp r :: ns, tr⟩
        url dataArg hdrsArg jf =
      .ok s2 e2 v ∧ s2.execution_time = b - a ∧
      s2.status = some r.status_code := by
  obtain ⟨tr2, h⟩ := execute_fresh_retries cfg fuel s st t a b us ts r ns tr
    url dataArg hdrsArg jf hst hexp
  exact ⟨_, _, _, h, rfl, rfl⟩

/-- Witness for C4: two connection failures, then a response. -/
theorem c4_retry_until_success_witness :
    ∃ s2 e2 v, execute cfg0 3
        { status := some 200, execution_time := 0, is_logged_in := true,
          headers := [("authorization", "Bearer abc")],
          session_start_time := some 0 }
        ⟨[10, 21, 22, 11, 13], [.connError, .connError, .resp ⟨200, []⟩], []⟩
        "students/list" none none true =
      .ok s2 e2 v ∧ s2.execution_time = 13 - 11 ∧
      s2.status = some 200 :=
  c4_retry_until_success cfg0 0
    { status := some 200, execution_time := 0, is_logged_in := true,
      headers := [("authorization", "Bearer abc")],
      session_start_time := some 0 }
    0 10 11 13 [21, 22] [] ⟨200, []⟩ [] [] "students/list" none none true
    rfl (by simp [pyInt, cfg0])

/-- C5: after the expiry check, `execute` sleeps the configured
`EXECUTION_TIMEOUT` and then POSTs to `url_prefix + '/api/' + url` with
the caller's form data and headers, defaulting to `{'': ''}` and `{}`
when omitted. -/
theorem c5_execute_waits_then_posts (cfg : Config) (fuel : Nat)
    (s : ConnectorState) (st t a b : Rat) (ts : List Rat) (r : Response)
    (ns : List NetResult) (tr : List Event) (url : String)
    (dataArg hdrsArg : Option (List (String × String))) (jf : Bool)
    (hst : s.session_start_time = some st)
    (hexp : pyInt (t - st) ≤ cfg.RELOGIN_AFTER) :
    ∃ s2 v, execute cfg (fuel + 1) s ⟨t :: a :: b :: ts, .resp r :: ns, tr⟩
        url dataArg hdrsArg jf =
      .ok s2
        ⟨ts, ns, tr ++ [.slept cfg.EXECUTION_TIMEOUT,
          .posted ⟨url_base cfg ++ "/api/" ++ url,
                   dataArg.getD [("", "")], hdrsArg.getD []⟩]⟩
        v :=
  ⟨_, _, execute_fresh_resp cfg fuel s st t a b ts r ns tr url
    dataArg hdrsArg jf hst hexp⟩

/-- Witness for C5 at a concrete call with explicit data and headers. -/
theorem c5_execute_waits_then_posts_witness :
    ∃ s2 v, execute cfg0 1
        { status := some 200, execution_time := 0, is_logged_in := true,
          headers := [("authorization", "Bearer abc")],
          session_start_time := some 0 }
        ⟨[10, 11, 13], [.resp ⟨200, []⟩], []⟩
        "students/list" (some [("page", "1")]) (some [("X-Extra", "yes")]) true =
      .ok s2
        ⟨[], [], [.slept cfg0.EXECUTION_TIMEOUT,
          .posted ⟨url_base cfg0 ++ "/api/" ++ "students/list",
                   (some [("page", "1")]).getD [("", "")],
                   (some [("X-Extra", "yes")]).getD []⟩]⟩
        v :=
  c5_execute_waits_then_posts cfg0 0
    { status := some 200, execution_time := 0, is_logged_in := true,
      headers := [("authorization", "Bearer abc")],
      session_start_time := some 0 }
    0 10 11 13 [] ⟨200, []⟩ [] [] "students/list"
    (some [("page", "1")]) (some [("X-Extra", "yes")]) true
    rfl (by simp [pyInt, cfg0])

/-- C6: a login attempt answered with any non-200 status, or failing with
a `ConnectionError`, terminates the process, and `_is_logged_in` (false
beforehand) remains false. -/
theorem c6_login_failure_exits (cfg : Config) (u p : String)
    (s : ConnectorState) (ts : List Rat) (nr : NetResult)
    (ns : List NetResult) (tr : List Event)
    (hlog : s.is_logged_in = false)
    (hfail : nr = NetResult.connError ∨
      ∃ r, nr = NetResult.resp r ∧ r.status_code ≠ 200) :
    ∃ e2, login cfg u p s ⟨ts, nr :: ns, tr⟩ = .exitProcess s e2 ∧
      s.is_logged_in = false := by
  rcases hfail with h | ⟨r, hr, hne⟩
  · subst h
    exact ⟨_, login_connError cfg u p s ts ns tr, hlog⟩
  · subst hr
    exact ⟨_, login_non200 cfg u p s ts r ns tr hne, hlog⟩

/-- Witness for C6 at a concrete 400 response. -/
theorem c6_login_failure_exits_witness :
    ∃ e2, login cfg0 "u" "p" (initState cfg0)
        ⟨[], .resp ⟨400, [("error", "bad creds")]⟩ :: [], []⟩ =
      .exitProcess (initState cfg0) e2 ∧
      (initState cfg0).is_logged_in = false :=
  c6_login_failure_exits cfg0 "u" "p" (initState cfg0) []
    (.resp ⟨400, [("error", "bad creds")]⟩) [] [] rfl
    (Or.inr ⟨⟨400, [("error", "bad creds")]⟩, rfl, by decide⟩)

/-- C7 counterexample: a reachable run — successful login, then a
successful logout answered 204 — ends with `_is_logged_in` false while the
bearer token is still in the session headers: the claimed invariant
"`bearerToken` is defined only while `isLoggedIn` is true" fails after
logout. -/
theorem c7_bearer_survives_logout :
    ∃ e1 s2 e2,
      login cfg0 "u" "p" (initState cfg0)
          ⟨[0], [.resp ⟨200, [("access_token", "abc")]⟩], []⟩ =
        .ok postLoginState e1 () ∧
      logout cfg0 2 postLoginState ⟨[10, 11, 13], [.resp ⟨204, []⟩], []⟩ =
        .ok s2 e2 () ∧
      s2.is_logged_in = false ∧
      dictGet s2.headers "authorization" = some "Bearer abc" := by
  have hlogin := login_200 cfg0 "u" "p" (initState cfg0) 0 []
    ⟨200, [("access_token", "abc")]⟩ [] [] "abc" rfl rfl
  have hlogout := logout_resp cfg0 0 postLoginState 0 10 11 13 [] ⟨204, []⟩
    [] [] rfl (by simp [pyInt, cfg0])
  exact ⟨_, _, _, hlogin, hlogout, rfl,
    dictGet_dictSet_self (default_headers cfg0) "authorization" "Bearer abc"⟩

/-- C7 amended: the bearer header is added at the first successful login
and is never removed; a completed logout leaves the session headers — the
stored bearer token included — exactly as they were, even though it clears
`_is_logged_in` on a 204. -/
theorem c7_logout_keeps_bearer_header (cfg : Config) (fuel : Nat)
    (s : ConnectorState) (st t a b : Rat) (ts : List Rat) (r : Response)
    (ns : List NetResult) (tr : List Event) (tok : String)
    (hst : s.session_start_time = some st)
    (hexp : pyInt (t - st) ≤ cfg.RELOGIN_AFTER)
    (htok : dictGet s.headers "authorization" = some tok) :
    ∃ s2 e2, logout cfg (fuel + 2) s ⟨t :: a :: b :: ts, .resp r :: ns, tr⟩ =
      .ok s2 e2 () ∧
      s2.headers = s.headers ∧
      dictGet s2.headers "authorization" = some tok :=
  ⟨_, _, logout_resp cfg fuel s st t a b ts r ns tr hst hexp, rfl, htok⟩

/-- Witness for the amended C7 at a concrete 204 logout. -/
theorem c7_logout_keeps_bearer_header_witness :
    ∃ s2 e2, logout cfg0 2
        { status := some 200, execution_time := 0, is_logged_in := true,
          headers := [("authorization", "Bearer abc")],
          session_start_time := some 0 }
        ⟨[10, 11, 13], [.resp ⟨204, []⟩], []⟩ =
      .ok s2 e2 () ∧
      s2.headers = [("authorization", "Bearer abc")] ∧
      dictGet s2.headers "authorization" = some "Bearer abc" :=
  c7_logout_keeps_bearer_header cfg0 0
    { status := some 200, execution_time := 0, is_logged_in := true,
      headers := [("authorization", "Bearer abc")],
      session_start_time := some 0 }
    0 10 11 13 [] ⟨204, []⟩ [] [] "Bearer abc" rfl
    (by simp [pyInt, cfg0]) rfl

/-- C8 counterexample: two successful logins that differ only in the
pre-existing `_execution_time` (5 vs 7) — same credentials, same response,
same clock — both complete, and each stores the stale prior value: after a
completed login, `_execution_time` does not reflect that request. -/
theorem c8_login_keeps_stale_time :
    ∃ s5 e5 s7 e7,
      login cfg0 "u" "p"
          { status := some 200, execution_time := 5, is_logged_in := true,
            headers := [], session_start_time := some 0 }
          ⟨[9], [.resp ⟨200, [("access_token", "abc")]⟩], []⟩ = .ok s5 e5 () ∧
      login cfg0 "u" "p"
          { status := some 200, execution_time := 7, is_logged_in := true,
            headers := [], session_start_time := some 0 }
          ⟨[9], [.resp ⟨200, [("access_token", "abc")]⟩], []⟩ = .ok s7 e7 () ∧
      s5.execution_time = 5 ∧ s7.execution_time = 7 :=
  ⟨_, _, _, _,
    login_200 cfg0 "u" "p" _ 9 [] ⟨200, [("access_token", "abc")]⟩ [] [] "abc"
      rfl rfl,
    login_200 cfg0 "u" "p" _ 9 [] ⟨200, [("access_token", "abc")]⟩ [] [] "abc"
      rfl rfl,
    rfl, rfl⟩

/-- C8 amended: a completed `execute` (and hence the one inside logout)
stores exactly the status and the duration of its own request; a
successful login stores its status (200) but leaves `_execution_time`
unchanged from before the login. -/
theorem c8_status_time_per_operation (cfg : Config) (fuel : Nat)
    (s : ConnectorState) (st t a b : Rat) (ts : List Rat) (r : Response)
    (ns : List NetResult) (tr : List Event) (url : String)
    (dataArg hdrsArg : Option (List (String × String))) (jf : Bool)
    (u p : String) (sl : ConnectorState) (tl : Rat) (tsl : List Rat)
    (rl : Response) (nsl : List NetResult) (trl : List Event) (tok : String)
    (hst : s.session_start_time = some st)
    (hexp : pyInt (t - st) ≤ cfg.RELOGIN_AFTER)
    (h200 : rl.status_code = 200)
    (htok : dictGet rl.body "access_token" = some tok) :
    (∃ s2 e2 v,
      execute cfg (fuel + 1) s ⟨t :: a :: b :: ts, .resp r :: ns, tr⟩
          url dataArg hdrsArg jf =
        .ok s2 e2 v ∧ s2.status = some r.status_code ∧
        s2.execution_time = b - a) ∧
    (∃ s2 e2,
      login cfg u p sl ⟨tl :: tsl, .resp rl :: nsl, trl⟩ = .ok s2 e2 () ∧
      s2.status = some 200 ∧ s2.execution_time = sl.execution_time) := by
  constructor
  · exact ⟨_, _, _, execute_fresh_resp cfg fuel s st t a b ts r ns tr url
      dataArg hdrsArg jf hst hexp, rfl, rfl⟩
  · exact ⟨_, _, login_200 cfg u p sl tl tsl rl nsl trl tok h200 htok,
      rfl, rfl⟩

/-- Witness for the amended C8. -/
theorem c8_status_time_per_operation_witness :
    (∃ s2 e2 v,
      execute cfg0 1
          { status := some 200, execution_time := 0, is_logged_in := true,
            headers := [], session_start_time := some 0 }
          ⟨[10, 11, 13], [.resp ⟨200, []⟩], []⟩ "students/list" none none true =
        .ok s2 e2 v ∧ s2.status = some 200 ∧
        s2.execution_time = 13 - 11) ∧
    (∃ s2 e2,
      login cfg0 "u" "p"
          { status := some 200, execution_time := 5, is_logged_in := true,
            headers := [], session_start_time := some 0 }
          ⟨[9], [.resp ⟨200, [("access_token", "abc")]⟩], []⟩ = .ok s2 e2 () ∧
      s2.status = some 200 ∧
      s2.execution_time =
        ({ status := some 200, execution_time := 5, is_logged_in := true,
           headers := [], session_start_time := some 0 } :
          ConnectorState).execution_time) :=
  c8_status_time_per_operation cfg0 0
    { status := some 200, execution_time := 0, is_logged_in := true,
      headers := [], session_start_time := some 0 }
    0 10 11 13 [] ⟨200, []⟩ [] [] "students/list" none none true "u" "p"
    { status := some 200, execution_time := 5, is_logged_in := true,
      headers := [], session_start_time := some 0 }
    9 [] ⟨200, [("access_token", "abc")]⟩ [] [] "abc"
    rfl (by simp [pyInt, cfg0]) rfl rfl

/-- C9: a completed `__logout` clears `_is_logged_in` exactly when the
logout request's final status is 204, and leaves it unchanged otherwise;
in particular, logging out while not logged in leaves `_is_logged_in`
false. -/
theorem c9_logout_clears_iff_204 (cfg : Config) (fuel : Nat)
    (s : ConnectorState) (st t a b : Rat) (ts : List Rat) (r : Response)
    (ns : List NetResult) (tr : List Event)
    (hst : s.session_start_time = some st)
    (hexp : pyInt (t - st) ≤ cfg.RELOGIN_AFTER) :
    ∃ s2 e2, logout cfg (fuel + 2) s ⟨t :: a :: b :: ts, .resp r :: ns, tr⟩ =
      .ok s2 e2 () ∧
      s2.is_logged_in = (if r.status_code = 204 then false else s.is_logged_in) ∧
      (s.is_logged_in = false → s2.is_logged_in = false) := by
  refine ⟨_, _, logout_resp cfg fuel s st t a b ts r ns tr hst hexp, rfl, ?_⟩
  intro h
  by_cases h204 : r.status_code = 204 <;> simp [h204, h]

/-- Witness for C9: a logout answered 204 from a not-logged-in state. -/
theorem c9_logout_clears_iff_204_witness :
    ∃ s2 e2, logout cfg0 2
        { status := some 200, execution_time := 0, is_logged_in := false,
          headers := [("authorization", "Bearer abc")],
          session_start_time := some 0 }
        ⟨[10, 11, 13], [.resp ⟨204, []⟩], []⟩ =
      .ok s2 e2 () ∧
      s2.is_logged_in = (if (204 : Nat) = 204 then false else false) ∧
      (false = false → s2.is_logged_in = false) :=
  c9_logout_clears_iff_204 cfg0 0
    { status := some 200, execution_time := 0, is_logged_in := false,
      headers := [("authorization", "Bearer abc")],
      session_start_time := some 0 }
    0 10 11 13 [] ⟨204, []⟩ [] [] rfl (by simp [pyInt, cfg0])

/-- C10: a login attempt answered 200 whose body lacks `access_token`
raises while building the authorization header, after `_is_logged_in`,
`_session_start_time` and `_status` have already been set — the login
state update is not atomic on this path; the headers are left untouched. -/
theorem c10_login_missing_token_partial_state (cfg : Config) (u p : String)
    (s : ConnectorState) (t : Rat) (ts : List Rat) (r : Response)
    (ns : List NetResult) (tr : List Event)
    (h200 : r.status_code = 200)
    (htok : dictGet r.body "access_token" = none) :
    ∃ s2 e2, login cfg u p s ⟨t :: ts, .resp r :: ns, tr⟩ = .raised s2 e2 ∧
      s2.is_logged_in = true ∧ s2.session_start_time = some t ∧
      s2.status = some 200 ∧ s2.headers = s.headers :=
  ⟨_, _, login_200_no_token cfg u p s t ts r ns tr h200 htok,
    rfl, rfl, rfl, rfl⟩

/-- Witness for C10 at a concrete token-less 200 response. -/
theorem c10_login_missing_token_partial_state_witness :
    ∃ s2 e2, login cfg0 "u" "p" (initState cfg0)
        ⟨[5], [.resp ⟨200, [("foo", "bar")]⟩], []⟩ = .raised s2 e2 ∧
      s2.is_logged_in = true ∧ s2.session_start_time = some 5 ∧
      s2.status = some 200 ∧ s2.headers = (initState cfg0).headers :=
  c10_login_missing_token_partial_state cfg0 "u" "p" (initState cfg0) 5 []
    ⟨200, [("foo", "bar")]⟩ [] [] rfl rfl

end Edbo
